import Mathlib

/-!
Verification development for the M1-MF-RAG retrieval core.

The definitions below are a shallow embedding of the retrieval engine of the
repository:

* `src/lib/retriever.js` — the vector-search retriever (ChromaDB backed).
  Its `parseQuery`, `retrieve`, `getChunk`, `listSchemes`, `getSchemeChunks`
  are embedded as `parseQuery`, `retrieveVector`, `getChunk`, `listSchemes`,
  `getSchemeChunks`.
* the keyword-search retriever variant (Fuse.js backed) found in the
  repository sources — its `retrieve` is embedded as `retrieveKeyword`
  (both variants share a textually identical `parseQuery`).
* `buildChunkLookup` / `buildMetadataIndex` from the index-building script.

External collaborators (the Gemini embedding model, the Chroma collection,
the prebuilt Fuse search object) are modelled as function-valued fields of
the retriever state, since the code treats them as opaque query functions.
Numeric scores and distances are modelled as rationals.
-/

/-! ### A small regex engine

The pattern tables of `parseQuery` use JavaScript regexes built from
literal characters, `.` (any character except newline), `?` (optional),
`*` (Kleene star, only as `.*`) and alternation `|`, all with the `i`
flag and tested unanchored via `pattern.test(query)`.  We embed exactly
that fragment, with matching by Brzozowski derivatives. -/

inductive Regex where
  | emp : Regex
  | eps : Regex
  | chr : Char → Regex
  | dot : Regex
  | alt : Regex → Regex → Regex
  | cat : Regex → Regex → Regex
  | star : Regex → Regex
  | quest : Regex → Regex
deriving DecidableEq

def Regex.nullable : Regex → Bool
  | .emp => false
  | .eps => true
  | .chr _ => false
  | .dot => false
  | .alt r s => r.nullable || s.nullable
  | .cat r s => r.nullable && s.nullable
  | .star _ => true
  | .quest _ => true

def Regex.deriv : Regex → Char → Regex
  | .emp, _ => .emp
  | .eps, _ => .emp
  | .chr c, a => if a = c then .eps else .emp
  | .dot, a => if a = '\n' then .emp else .eps
  | .alt r s, a => .alt (r.deriv a) (s.deriv a)
  | .cat r s, a =>
      if r.nullable then .alt (.cat (r.deriv a) s) (s.deriv a)
      else .cat (r.deriv a) s
  | .star r, a => .cat (r.deriv a) (.star r)
  | .quest r, a => r.deriv a

/-- Does `r` match some prefix of `l` (possibly the empty prefix)? -/
def Regex.matchesFrom (r : Regex) : List Char → Bool
  | [] => r.nullable
  | c :: cs => r.nullable || (r.deriv c).matchesFrom cs

/-- Does `r` match some substring of `l`?  This is unanchored search, the
semantics of JavaScript `RegExp.prototype.test`. -/
def Regex.search : Regex → List Char → Bool
  | r, [] => r.matchesFrom []
  | r, c :: cs => r.matchesFrom (c :: cs) || r.search cs

/-- `pattern.test(query)` with the `i` flag: the pattern tables are written
in lower case, so the `i` flag amounts to lower-casing the input. -/
def Regex.testI (r : Regex) (s : String) : Bool :=
  r.search (s.data.map Char.toLower)

/-- A string literal as a regex (concatenation of its characters). -/
def rstr (s : String) : Regex :=
  s.data.foldr (fun c r => .cat (.chr c) r) .eps

/-- `.?` — at most one arbitrary character. -/
def dotOpt : Regex := .quest .dot

/-- `.*` — any number of arbitrary characters. -/
def dotStar : Regex := .star .dot

/-! ### parseQuery (identical in both retriever variants)

`parseQuery(query)` lower-cases nothing it uses (the computed `lowerQuery`
variable is dead; the `i` flag on each pattern handles case), walks the
scheme pattern table and breaks at the first match, then walks the intent
pattern table and breaks at the first match, and returns both hints
(either possibly null) together with the query. -/

structure ParsedQuery where
  schemeId : Option String
  sectionType : Option String
  query : String
deriving DecidableEq

/-- The scheme pattern table of `parseQuery`, in declaration order. -/
def schemePatterns : List (Regex × String) :=
  [ (.cat (rstr "mid") (.cat dotOpt (rstr "cap")), "hdfc-mid-cap-fund-direct-growth"),
    (.cat (rstr "large") (.cat dotOpt (rstr "cap")), "hdfc-large-cap-fund-direct-growth"),
    (.cat (rstr "small") (.cat dotOpt (rstr "cap")), "hdfc-small-cap-fund-direct-growth"),
    (.cat (rstr "flexi") (.cat dotOpt (rstr "cap")), "hdfc-equity-fund-direct-growth"),
    (.alt (rstr "elss") (.cat (rstr "tax") (.cat dotOpt (rstr "saver"))),
      "hdfc-elss-tax-saver-fund-direct-plan-growth") ]

/-- The intent pattern table of `parseQuery`, in declaration order. -/
def intentPatterns : List (Regex × String) :=
  [ (.alt (.cat (rstr "expense") (.cat dotOpt (rstr "ratio")))
      (.alt (rstr "ter") (.alt (rstr "fee") (rstr "charges"))), "fees"),
    (.cat (rstr "exit") (.cat dotOpt (rstr "load")), "fees"),
    (.alt (.cat (rstr "minimum") (.cat dotOpt (rstr "sip")))
      (.alt (.cat (rstr "min") (.cat dotStar (rstr "sip")))
        (.cat (rstr "sip") (.cat dotStar (rstr "amount")))), "facts_performance"),
    (.alt (.cat (rstr "lock") (.cat dotOpt (rstr "in"))) (rstr "lockin"), "tax_redemption"),
    (.alt (rstr "risk") (rstr "riskometer"), "riskometer_benchmark"),
    (rstr "benchmark", "riskometer_benchmark"),
    (.alt (.cat (rstr "holding") (.quest (.chr 's'))) (rstr "portfolio"), "portfolio_holdings"),
    (.alt (rstr "tax")
      (.alt (.cat (rstr "capital") (.cat dotOpt (rstr "gains")))
        (.alt (rstr "ltcg") (.alt (rstr "stcg") (rstr "80c")))), "tax_redemption"),
    (.alt (.cat (rstr "download") (.cat dotStar (rstr "statement")))
      (.alt (.cat (rstr "statement") (.cat dotStar (rstr "download")))
        (.cat (rstr "how") (.cat dotStar (rstr "download")))), "downloads"),
    (.alt (rstr "nav") (.alt (.cat (rstr "return") (.quest (.chr 's'))) (rstr "performance")),
      "facts_performance"),
    (.alt (.cat (rstr "fund") (.cat dotOpt (rstr "size"))) (rstr "aum"), "facts_performance") ]

/-- The `for ... if (pattern.test(query)) break` loop over a pattern table:
the first pattern in declaration order that matches decides the value. -/
def firstMatch (pats : List (Regex × String)) (q : String) : Option String :=
  match pats with
  | [] => none
  | (p, v) :: rest => if p.testI q then some v else firstMatch rest q

/-- `MutualFundRetriever.parseQuery` — extracts the scheme hint and the
section hint from a free-text query. -/
def parseQuery (query : String) : ParsedQuery :=
  { schemeId := firstMatch schemePatterns query,
    sectionType := firstMatch intentPatterns query,
    query := query }

example : (parseQuery "small cap tax").schemeId = some "hdfc-small-cap-fund-direct-growth" := by
  decide

example : (parseQuery "small cap tax").sectionType = some "tax_redemption" := by decide

example : parseQuery "hello" = { schemeId := none, sectionType := none, query := "hello" } := by
  decide

example : (parseQuery "asdkqwe nonsense xyz").schemeId = none := by decide

example : (parseQuery "asdkqwe nonsense xyz").sectionType = none := by decide

example : (parseQuery "What is the expense ratio of the mid cap fund?").schemeId
    = some "hdfc-mid-cap-fund-direct-growth" := by decide

example : (parseQuery "What is the expense ratio of the mid cap fund?").sectionType
    = some "fees" := by decide

example : (parseQuery "risk and tax").sectionType = some "riskometer_benchmark" := by decide

/-! ### Data model

A chunk (the atomic retrievable record), as produced by the ingestion
scripts and consumed by the retrievers.  `fields_json` is modelled as an
ordered key/value list with values already stringified (the index builder
applies `String(...)` to each value before indexing by field). -/

structure Chunk where
  chunk_id : String
  scheme_id : String
  scheme_display_name : String
  section_type : String
  content_md : String
  source_url : String
  fields_json : List (String × String)
deriving DecidableEq

/-! JavaScript plain objects used as maps: property assignment overwrites an
existing key in place and appends a new key; property read returns the value
or undefined.  We model them as ordered association lists. -/

/-- `obj[k] = v` on a plain object used as a map. -/
def jsSet {α : Type} (m : List (String × α)) (k : String) (v : α) : List (String × α) :=
  match m with
  | [] => [(k, v)]
  | (k0, v0) :: rest => if k0 = k then (k, v) :: rest else (k0, v0) :: jsSet rest k v

/-- `obj[k]` on a plain object used as a map (`none` is undefined). -/
def jsGet {α : Type} (m : List (String × α)) (k : String) : Option α :=
  match m with
  | [] => none
  | (k0, v0) :: rest => if k0 == k then some v0 else jsGet rest k

/-- `set.add(x)` on a JS `Set` (insertion ordered, deduplicated); the index
builder converts the set to an array at the end, which is the identity in
this model. -/
def jsSetAdd (l : List String) (x : String) : List String :=
  if x ∈ l then l else l ++ [x]

/-- `if (!m[k]) m[k] = []; m[k].push(x)` — append `x` to the entry of `k`,
creating it when missing. -/
def jsPush (m : List (String × List String)) (k : String) (x : String) :
    List (String × List String) :=
  match jsGet m k with
  | some xs => jsSet m k (xs ++ [x])
  | none => m ++ [(k, [x])]

/-- The nested push used for the by-field index:
`if (!m[key]) m[key] = {}; if (!m[key][value]) m[key][value] = []; push`. -/
def jsPushNested (m : List (String × List (String × List String))) (key value x : String) :
    List (String × List (String × List String)) :=
  match jsGet m key with
  | some inner => jsSet m key (jsPush inner value x)
  | none => m ++ [(key, [(value, [x])])]

/-- The metadata index built by the index-building script. -/
structure MetaIndex where
  by_scheme : List (String × List String)
  by_section : List (String × List String)
  by_field : List (String × List (String × List String))
  all_schemes : List String
  all_sections : List String
deriving DecidableEq

/-- One `chunks.forEach` step of `buildMetadataIndex`. -/
def metaStep (idx : MetaIndex) (c : Chunk) : MetaIndex :=
  let idx := { idx with by_scheme := jsPush idx.by_scheme c.scheme_id c.chunk_id,
                        all_schemes := jsSetAdd idx.all_schemes c.scheme_id }
  let idx := { idx with by_section := jsPush idx.by_section c.section_type c.chunk_id,
                        all_sections := jsSetAdd idx.all_sections c.section_type }
  { idx with by_field :=
      c.fields_json.foldl (fun m kv => jsPushNested m kv.1 kv.2 c.chunk_id) idx.by_field }

/-- `buildMetadataIndex(chunks)` from the index-building script. -/
def buildMetadataIndex (chunks : List Chunk) : MetaIndex :=
  chunks.foldl metaStep
    { by_scheme := [], by_section := [], by_field := [], all_schemes := [], all_sections := [] }

/-- `buildChunkLookup(chunks)` from the index-building script:
`lookup[chunk.chunk_id] = chunk` for each chunk in order. -/
def buildChunkLookup (chunks : List Chunk) : List (String × Chunk) :=
  chunks.foldl (fun lookup c => jsSet lookup c.chunk_id c) []

/-! ### Retriever state and pass-through accessors

The fields every retriever variant loads at `initialize()`: the chunk
lookup, the metadata index, and the initialized flag.  The accessors
`getChunk`, `listSchemes`, `getSchemeChunks` are textually identical in
both retriever variants; a thrown JS error is modelled as `Except.error`. -/

structure RCore where
  chunkLookup : List (String × Chunk)
  metadataIndex : MetaIndex
  initialized : Bool

/-- `MutualFundRetriever.getChunk(chunkId)`. -/
def getChunk (st : RCore) (chunkId : String) : Except String (Option Chunk) :=
  if !st.initialized then .error "Retriever not initialized"
  else .ok (jsGet st.chunkLookup chunkId)

/-- `MutualFundRetriever.listSchemes()`. -/
def listSchemes (st : RCore) : Except String (List String) :=
  if !st.initialized then .error "Retriever not initialized"
  else .ok st.metadataIndex.all_schemes

/-- `MutualFundRetriever.getSchemeChunks(schemeId)` —
`(by_scheme[schemeId] || []).map(id => lookup[id]).filter(Boolean)`. -/
def getSchemeChunks (st : RCore) (schemeId : String) : Except String (List Chunk) :=
  if !st.initialized then .error "Retriever not initialized"
  else .ok (((jsGet st.metadataIndex.by_scheme schemeId).getD []).filterMap (jsGet st.chunkLookup))

/-- `options.limit || d` — JavaScript `||` treats both `undefined` and `0`
as falsy, so a limit of `0` is replaced by the default. -/
def jsOrNat (o : Option Nat) (d : Nat) : Nat :=
  match o with
  | some n => if n = 0 then d else n
  | none => d

/-! ### The keyword-search retriever (Fuse.js variant)

`this.fuse.search(query, { limit })` is an external prebuilt search object;
it is modelled as a function-valued field returning scored results in
Fuse's order (ascending score, lower is better).  The `result.matches`
field is carried by the code but never read, so it is not modelled. -/

structure FuseResult where
  item : Chunk
  score : Rat
deriving DecidableEq

structure KState extends RCore where
  fuse : String → Nat → List FuseResult

/-- Stable insertion into a score-sorted list: the inserted element goes
after existing elements of equal score. -/
def insertByScore (x : FuseResult) : List FuseResult → List FuseResult
  | [] => [x]
  | y :: ys => if x.score < y.score then x :: y :: ys else y :: insertByScore x ys

/-- `.sort((a, b) => a.score - b.score)` — a stable ascending sort by score
(JavaScript array sort is stable). -/
def sortByScore (l : List FuseResult) : List FuseResult :=
  l.foldl (fun acc x => insertByScore x acc) []

/-- The filter of the ranking stage: drop a result when a scheme hint is
present and disagrees, or a section hint is present and disagrees. -/
def hintFilter (pq : ParsedQuery) (r : FuseResult) : Bool :=
  (match pq.schemeId with
   | some sid => decide (r.item.scheme_id = sid)
   | none => true)
  && (match pq.sectionType with
      | some sec => decide (r.item.section_type = sec)
      | none => true)

/-- Strategy 2 of the keyword retriever: candidate chunks narrowed by the
scheme index and (when more than 5 remain) by the section type. -/
def strategy2Candidates (st : KState) (pq : ParsedQuery) : List Chunk :=
  let c0 := st.chunkLookup.map (fun kv => kv.2)
  let c1 := match pq.schemeId with
    | some sid => ((jsGet st.metadataIndex.by_scheme sid).getD []).filterMap (jsGet st.chunkLookup)
    | none => c0
  match pq.sectionType with
  | some sec => if 5 < c1.length then c1.filter (fun c => decide (c.section_type = sec)) else c1
  | none => c1

structure KResult where
  chunks : List Chunk
  method : String
  schemeId : Option String
  sectionType : Option String
  scores : Option (List Rat)
deriving DecidableEq

/-- The ranking stage of the keyword retriever after the Fuse search:
filter by the hints, sort ascending by score, take `limit`; if empty and a
section hint exists, refilter by section only; if still empty, take the
first `limit` raw results. -/
def keywordRanked (pq : ParsedQuery) (searchResults : List FuseResult) (limit : Nat) :
    List FuseResult :=
  let ranked1 := (sortByScore (searchResults.filter (hintFilter pq))).take limit
  let ranked2 :=
    match pq.sectionType with
    | some sec =>
        if ranked1.isEmpty then
          (sortByScore (searchResults.filter
            (fun r => decide (r.item.section_type = sec)))).take limit
        else ranked1
    | none => ranked1
  if ranked2.isEmpty then searchResults.take limit else ranked2

/-- Strategy 1 of both retrievers: when both hints are present, look up the
canonical id `schemeId ++ "__" ++ sectionType` directly. -/
def directHit (st : RCore) (pq : ParsedQuery) : Option Chunk :=
  match pq.schemeId, pq.sectionType with
  | some sid, some sec => jsGet st.chunkLookup (sid ++ "__" ++ sec)
  | _, _ => none

/-- `MutualFundRetriever.retrieve(query, options)` of the keyword-search
(Fuse.js) retriever variant, modelled on an initialized state. -/
def retrieveKeyword (st : KState) (query : String) (optLimit : Option Nat) : KResult :=
  let pq := parseQuery query
  let limit := jsOrNat optLimit 3
  match directHit st.toRCore pq with
  | some c =>
      { chunks := [c], method := "direct_lookup",
        schemeId := pq.schemeId, sectionType := pq.sectionType, scores := none }
  | none =>
      let candidateChunks := strategy2Candidates st pq
      let searchResults := st.fuse query (limit * 3)
      let ranked := keywordRanked pq searchResults limit
      { chunks := ranked.map (fun r => r.item), method := "keyword_search",
        schemeId := pq.schemeId, sectionType := pq.sectionType,
        scores := some (ranked.map (fun r => r.score)) }

/-- The keyword retriever with the Strategy-2 candidate pre-filtering block
removed; used to state that the block never influences the result. -/
def retrieveKeywordNoS2 (st : KState) (query : String) (optLimit : Option Nat) : KResult :=
  let pq := parseQuery query
  let limit := jsOrNat optLimit 3
  match directHit st.toRCore pq with
  | some c =>
      { chunks := [c], method := "direct_lookup",
        schemeId := pq.schemeId, sectionType := pq.sectionType, scores := none }
  | none =>
      let searchResults := st.fuse query (limit * 3)
      let ranked := keywordRanked pq searchResults limit
      { chunks := ranked.map (fun r => r.item), method := "keyword_search",
        schemeId := pq.schemeId, sectionType := pq.sectionType,
        scores := some (ranked.map (fun r => r.score)) }

/-! ### The vector-search retriever (ChromaDB variant, `src/lib/retriever.js`)

The embedding model (`embedContent`) and the Chroma collection query are
external asynchronous collaborators that may fail; they are modelled as
`Except`-valued function fields of the state.  The Chroma result carries
parallel arrays `ids[0]` and `distances[0]`; these are modelled as one
list of (chunk id, distance) pairs. -/

structure QueryParams where
  queryEmbedding : List Rat
  nResults : Nat
  whereScheme : Option String
  whereSection : Option String
deriving DecidableEq

structure VState extends RCore where
  embed : String → Except String (List Rat)
  chromaQuery : QueryParams → Except String (List (String × Rat))

/-- The chunk spread with its vector annotations
(`{ ...chunk, vectorScore, vectorDistance }`); the error-fallback path
returns the bare chunk (`none` annotations), and the unfiltered-retry path
sets only `vectorScore`. -/
structure AnnChunk where
  chunk : Chunk
  vectorScore : Option Rat
  vectorDistance : Option Rat
deriving DecidableEq

/-- The retrieval result object of the vector retriever.  The
`direct_lookup_fallback` branch carries no `scores` array and is the only
branch carrying an `error` message; an absent field is `none`. -/
structure VResult where
  chunks : List AnnChunk
  method : String
  schemeId : Option String
  sectionType : Option String
  scores : Option (List Rat)
  error : Option String
deriving DecidableEq

/-- The distance-to-similarity conversion of the vector retriever:
`1 - distance`. -/
def vectorScore (d : Rat) : Rat := 1 - d

/-- The `try` block of `MutualFundRetriever.retrieve` in
`src/lib/retriever.js`: embed the query, query Chroma with the hint
filters, and on an empty hit list retry once without filters when any
filter was set. -/
def retrieveVectorTry (st : VState) (pq : ParsedQuery) (limit : Nat) :
    Except String VResult :=
  match st.embed pq.query with
  | .error e => .error e
  | .ok emb =>
    match st.chromaQuery
      { queryEmbedding := emb, nResults := limit,
        whereScheme := pq.schemeId, whereSection := pq.sectionType } with
    | .error e => .error e
    | .ok res =>
      if res.isEmpty then
        if pq.schemeId.isSome || pq.sectionType.isSome then
          match st.chromaQuery
            { queryEmbedding := emb, nResults := limit,
              whereScheme := none, whereSection := none } with
          | .error e => .error e
          | .ok fb =>
            .ok { chunks := fb.filterMap (fun p => (jsGet st.chunkLookup p.1).map
                    (fun c => { chunk := c, vectorScore := some (vectorScore p.2),
                                vectorDistance := none })),
                  method := "vector_search_fallback",
                  schemeId := pq.schemeId, sectionType := pq.sectionType,
                  scores := some (fb.map (fun p => vectorScore p.2)), error := none }
        else
          .ok { chunks := [], method := "vector_search",
                schemeId := pq.schemeId, sectionType := pq.sectionType,
                scores := some [], error := none }
      else
        .ok { chunks := res.filterMap (fun p => (jsGet st.chunkLookup p.1).map
                (fun c => { chunk := c, vectorScore := some (vectorScore p.2),
                            vectorDistance := some p.2 })),
              method := "vector_search",
              schemeId := pq.schemeId, sectionType := pq.sectionType,
              scores := some (res.map (fun p => vectorScore p.2)), error := none }

/-- `MutualFundRetriever.retrieve(query, options)` of the vector-search
retriever (`src/lib/retriever.js`), modelled on an initialized state.  The
`catch` block degrades to a direct exact-id lookup only when both hints are
present and the chunk exists; otherwise it rethrows the error. -/
def retrieveVector (st : VState) (query : String) (optLimit : Option Nat) :
    Except String VResult :=
  let pq := parseQuery query
  let limit := jsOrNat optLimit 5
  match retrieveVectorTry st pq limit with
  | .ok r => .ok r
  | .error e =>
      match pq.schemeId, pq.sectionType with
      | some sid, some sec =>
          match jsGet st.chunkLookup (sid ++ "__" ++ sec) with
          | some c =>
              .ok { chunks := [{ chunk := c, vectorScore := none, vectorDistance := none }],
                    method := "direct_lookup_fallback",
                    schemeId := some sid, sectionType := some sec,
                    scores := none, error := some e }
          | none => .error e
      | _, _ => .error e

/-! ### Concrete fixtures

A two-record corpus for the HDFC small-cap scheme, mirroring the shape of
the chunks under `data/chunks/`.  The query `"small cap tax"` extracts both
hints and the corresponding canonical id is present in the corpus. -/

def chunkTax : Chunk :=
  { chunk_id := "hdfc-small-cap-fund-direct-growth__tax_redemption",
    scheme_id := "hdfc-small-cap-fund-direct-growth",
    scheme_display_name := "HDFC Small Cap Fund Direct Growth",
    section_type := "tax_redemption",
    content_md := "Tax and redemption details.",
    source_url := "https://groww.in/mutual-funds/hdfc-small-cap-fund-direct-growth",
    fields_json := [("lock_in_years", "0")] }

def chunkFees : Chunk :=
  { chunk_id := "hdfc-small-cap-fund-direct-growth__fees",
    scheme_id := "hdfc-small-cap-fund-direct-growth",
    scheme_display_name := "HDFC Small Cap Fund Direct Growth",
    section_type := "fees",
    content_md := "Expense ratio details.",
    source_url := "https://groww.in/mutual-funds/hdfc-small-cap-fund-direct-growth",
    fields_json := [("expense_ratio", "0.71")] }

def corpus2 : List Chunk := [chunkTax, chunkFees]

def lookup2 : List (String × Chunk) := buildChunkLookup corpus2

def meta2 : MetaIndex := buildMetadataIndex corpus2

example : jsGet lookup2 "hdfc-small-cap-fund-direct-growth__tax_redemption" = some chunkTax := by
  decide

/-- A keyword-retriever state whose Fuse search finds nothing (a corpus with
no text overlap with the query). -/
def kstEmptyFuse : KState :=
  { chunkLookup := lookup2, metadataIndex := meta2, initialized := true,
    fuse := fun _ _ => [] }

/-- A vector-retriever state over `corpus2` with a healthy embedding model
and a Chroma collection that honours the metadata filters: a query filtered
to the small-cap scheme and the tax section returns exactly the matching
chunk at distance 0, and an unfiltered query returns both chunks. -/
def vstHealthy : VState :=
  { chunkLookup := lookup2, metadataIndex := meta2, initialized := true,
    embed := fun _ => .ok [1, 0],
    chromaQuery := fun p =>
      if p.whereScheme = some "hdfc-small-cap-fund-direct-growth"
          && p.whereSection = some "tax_redemption" then
        .ok [("hdfc-small-cap-fund-direct-growth__tax_redemption", 0)]
      else if p.whereScheme = none && p.whereSection = none then
        .ok [("hdfc-small-cap-fund-direct-growth__fees", 0),
             ("hdfc-small-cap-fund-direct-growth__tax_redemption", 1)]
      else .ok [] }

/-- A vector-retriever state whose embedding provider fails on every call. -/
def vstEmbedFail : VState :=
  { chunkLookup := lookup2, metadataIndex := meta2, initialized := true,
    embed := fun _ => .error "embedding failed",
    chromaQuery := fun _ => .ok [] }

/-- A vector-retriever state whose Chroma collection reports an L2 distance
greater than 1 (L2 distances are unbounded). -/
def vstFarAway : VState :=
  { chunkLookup := lookup2, metadataIndex := meta2, initialized := true,
    embed := fun _ => .ok [1, 0],
    chromaQuery := fun _ =>
      .ok [("hdfc-small-cap-fund-direct-growth__fees", 2)] }

example : retrieveVector vstHealthy "small cap tax" none =
    .ok { chunks := [{ chunk := chunkTax, vectorScore := some (vectorScore 0),
                       vectorDistance := some 0 }],
          method := "vector_search",
          schemeId := some "hdfc-small-cap-fund-direct-growth",
          sectionType := some "tax_redemption",
          scores := some [vectorScore 0], error := none } := by rfl

/-! ### Claim C1 -/

/-- Claim C1 as stated is false: at the concrete query `"small cap tax"`
both hints are extracted and the record with the canonical id
`hdfc-small-cap-fund-direct-growth__tax_redemption` is in the corpus, yet
the vector retriever runs the vector search first and returns
method `"vector_search"`, not `"exact"`; the keyword retriever does run the
exact-id lookup first but labels it `"direct_lookup"`. -/
theorem c1_counterexample :
    (parseQuery "small cap tax").schemeId = some "hdfc-small-cap-fund-direct-growth"
    ∧ (parseQuery "small cap tax").sectionType = some "tax_redemption"
    ∧ jsGet vstHealthy.chunkLookup
        ("hdfc-small-cap-fund-direct-growth" ++ "__" ++ "tax_redemption") = some chunkTax
    ∧ retrieveVector vstHealthy "small cap tax" none =
        .ok { chunks := [{ chunk := chunkTax, vectorScore := some (vectorScore 0),
                           vectorDistance := some 0 }],
              method := "vector_search",
              schemeId := some "hdfc-small-cap-fund-direct-growth",
              sectionType := some "tax_redemption",
              scores := some [vectorScore 0], error := none }
    ∧ "vector_search" ≠ "exact"
    ∧ (retrieveKeyword kstEmptyFuse "small cap tax" none).method = "direct_lookup"
    ∧ "direct_lookup" ≠ "exact" :=
  ⟨by decide, by decide, by decide, by rfl, by decide, by decide, by decide⟩

/-- Claim C1 amended: in the keyword retriever, whenever both hints are
extracted and a record with the canonical id exists, `retrieve` returns
exactly that single record with method `"direct_lookup"`, before and
independently of the Fuse search (the conclusion holds for every state,
hence for every search function).  In the vector retriever the exact-id
lookup is not attempted before the vector search: whenever the try block
succeeds, its result is returned unchanged. -/
theorem c1_direct_lookup_precedence :
    (∀ (st : KState) (q : String) (l : Option Nat) (sid sec : String) (c : Chunk),
      (parseQuery q).schemeId = some sid →
      (parseQuery q).sectionType = some sec →
      jsGet st.chunkLookup (sid ++ "__" ++ sec) = some c →
      retrieveKeyword st q l =
        { chunks := [c], method := "direct_lookup", schemeId := some sid,
          sectionType := some sec, scores := none })
    ∧ (∀ (st : VState) (q : String) (l : Option Nat) (r : VResult),
      retrieveVectorTry st (parseQuery q) (jsOrNat l 5) = .ok r →
      retrieveVector st q l = .ok r) := by
  constructor
  · intro st q l sid sec c h1 h2 h3
    simp only [retrieveKeyword, directHit, h1, h2, h3]
  · intro st q l r h
    simp only [retrieveVector, h]

/-- Witness for `c1_direct_lookup_precedence` at the concrete fixtures. -/
theorem c1_direct_lookup_precedence_witness :
    retrieveKeyword kstEmptyFuse "small cap tax" (some 2) =
      { chunks := [chunkTax], method := "direct_lookup",
        schemeId := some "hdfc-small-cap-fund-direct-growth",
        sectionType := some "tax_redemption", scores := none }
    ∧ retrieveVector vstHealthy "small cap tax" none =
        .ok { chunks := [{ chunk := chunkTax, vectorScore := some (vectorScore 0),
                           vectorDistance := some 0 }],
              method := "vector_search",
              schemeId := some "hdfc-small-cap-fund-direct-growth",
              sectionType := some "tax_redemption",
              scores := some [vectorScore 0], error := none } :=
  ⟨c1_direct_lookup_precedence.1 kstEmptyFuse "small cap tax" (some 2)
      "hdfc-small-cap-fund-direct-growth" "tax_redemption" chunkTax
      (by decide) (by decide) (by decide),
    c1_direct_lookup_precedence.2 vstHealthy "small cap tax" none _ (by rfl)⟩

/-! ### Claim C2 -/

/-- Claim C2 as stated is false: for the query `"hello"` no hints are
extracted, so when the embedding provider fails the `catch` block of
`retrieve` rethrows and the error reaches the caller. -/
theorem c2_counterexample :
    retrieveVector vstEmbedFail "hello" none = .error "embedding failed" := by rfl

/-- Claim C2 amended: an embedding-provider or vector-index error is caught
inside `retrieve` and degraded to the direct exact-id lookup only when both
hints are present and the canonical chunk exists; in every other case the
error propagates to the caller. -/
theorem c2_error_degrade :
    (∀ (st : VState) (q : String) (l : Option Nat) (sid sec : String) (c : Chunk) (e : String),
      (parseQuery q).schemeId = some sid →
      (parseQuery q).sectionType = some sec →
      retrieveVectorTry st (parseQuery q) (jsOrNat l 5) = .error e →
      jsGet st.chunkLookup (sid ++ "__" ++ sec) = some c →
      retrieveVector st q l =
        .ok { chunks := [{ chunk := c, vectorScore := none, vectorDistance := none }],
              method := "direct_lookup_fallback", schemeId := some sid,
              sectionType := some sec, scores := none, error := some e })
    ∧ (∀ (st : VState) (q : String) (l : Option Nat) (sid sec : String) (e : String),
      (parseQuery q).schemeId = some sid →
      (parseQuery q).sectionType = some sec →
      retrieveVectorTry st (parseQuery q) (jsOrNat l 5) = .error e →
      jsGet st.chunkLookup (sid ++ "__" ++ sec) = none →
      retrieveVector st q l = .error e)
    ∧ (∀ (st : VState) (q : String) (l : Option Nat) (e : String),
      ((parseQuery q).schemeId = none ∨ (parseQuery q).sectionType = none) →
      retrieveVectorTry st (parseQuery q) (jsOrNat l 5) = .error e →
      retrieveVector st q l = .error e) := by
  refine ⟨?_, ?_, ?_⟩
  · intro st q l sid sec c e h1 h2 htry h3
    simp only [retrieveVector, htry, h1, h2, h3]
  · intro st q l sid sec e h1 h2 htry h3
    simp only [retrieveVector, htry, h1, h2, h3]
  · intro st q l e h htry
    rcases h with h | h
    · simp only [retrieveVector, htry, h]
    · cases hs : (parseQuery q).schemeId with
      | none => simp only [retrieveVector, htry, hs]
      | some sid => simp only [retrieveVector, htry, hs, h]

/-- Witness for `c2_error_degrade`: with both hints and the canonical chunk
present, a failing embedding provider degrades to the direct lookup; with
no hints it propagates. -/
theorem c2_error_degrade_witness :
    retrieveVector vstEmbedFail "small cap tax" none =
      .ok { chunks := [{ chunk := chunkTax, vectorScore := none, vectorDistance := none }],
            method := "direct_lookup_fallback",
            schemeId := some "hdfc-small-cap-fund-direct-growth",
            sectionType := some "tax_redemption", scores := none,
            error := some "embedding failed" }
    ∧ retrieveVector vstEmbedFail "hello there" none = .error "embedding failed" :=
  ⟨c2_error_degrade.1 vstEmbedFail "small cap tax" none
      "hdfc-small-cap-fund-direct-growth" "tax_redemption" chunkTax "embedding failed"
      (by decide) (by decide) (by rfl) (by decide),
    c2_error_degrade.2.2 vstEmbedFail "hello there" none "embedding failed"
      (Or.inl (by decide)) (by rfl)⟩

/-! ### Claim C3 -/

/-- When the Fuse search yields nothing, every ranking stage is empty. -/
lemma keywordRanked_nil (pq : ParsedQuery) (limit : Nat) : keywordRanked pq [] limit = [] := by
  unfold keywordRanked
  cases pq.sectionType <;> simp [sortByScore]

/-- Claim C3 as stated is false on the method field: for the nonsense query
with no hints and no text overlap the keyword retriever returns an empty
record list without throwing, but reports method `"keyword_search"`, not
`"none"`. -/
theorem c3_counterexample :
    retrieveKeyword kstEmptyFuse "asdkqwe nonsense xyz" none =
      { chunks := [], method := "keyword_search", schemeId := none,
        sectionType := none, scores := some [] }
    ∧ "keyword_search" ≠ "none" := ⟨by decide, by decide⟩

/-- Claim C3 amended: when every cascade step yields nothing, `retrieve`
returns an empty record list and does not throw, but the method field
reports the last strategy attempted (`"keyword_search"` in the keyword
retriever, `"vector_search"` in the vector retriever), not `"none"`. -/
theorem c3_empty_result :
    (∀ (st : KState) (q : String) (l : Option Nat),
      directHit st.toRCore (parseQuery q) = none →
      st.fuse q (jsOrNat l 3 * 3) = [] →
      retrieveKeyword st q l =
        { chunks := [], method := "keyword_search", schemeId := (parseQuery q).schemeId,
          sectionType := (parseQuery q).sectionType, scores := some [] })
    ∧ (∀ (st : VState) (q : String) (l : Option Nat) (emb : List Rat),
      (parseQuery q).schemeId = none →
      (parseQuery q).sectionType = none →
      st.embed q = .ok emb →
      st.chromaQuery { queryEmbedding := emb, nResults := jsOrNat l 5,
                       whereScheme := none, whereSection := none } = .ok [] →
      retrieveVector st q l =
        .ok { chunks := [], method := "vector_search", schemeId := none,
              sectionType := none, scores := some [], error := none }) := by
  constructor
  · intro st q l hdirect hfuse
    simp only [retrieveKeyword, hdirect, hfuse, keywordRanked_nil, List.map_nil]
  · intro st q l emb h1 h2 hembed hchroma
    have hq : (parseQuery q).query = q := rfl
    simp only [retrieveVector, retrieveVectorTry, h1, h2, hq, hembed, hchroma,
      List.isEmpty_nil, if_true]
    rfl

/-- A vector-retriever state whose Chroma collection finds nothing for any
query (healthy embedding model, empty hit lists). -/
def vstNothing : VState :=
  { chunkLookup := lookup2, metadataIndex := meta2, initialized := true,
    embed := fun _ => .ok [0],
    chromaQuery := fun _ => .ok [] }

/-- Witness for `c3_empty_result` at the concrete fixtures. -/
theorem c3_empty_result_witness :
    retrieveKeyword kstEmptyFuse "asdkqwe nonsense xyz" (some 2) =
      { chunks := [], method := "keyword_search", schemeId := none,
        sectionType := none, scores := some [] }
    ∧ retrieveVector vstNothing "qqq zzz" none =
        .ok { chunks := [], method := "vector_search", schemeId := none,
              sectionType := none, scores := some [], error := none } :=
  ⟨c3_empty_result.1 kstEmptyFuse "asdkqwe nonsense xyz" (some 2) (by decide) (by rfl),
    c3_empty_result.2 vstNothing "qqq zzz" none [0] (by decide) (by decide)
      (by rfl) (by rfl)⟩

/-! ### Claim C4 -/

/-- Claim C4 as stated is false on the `limit = 0` half: because the code
computes `options.limit || default`, and `0` is falsy in JavaScript, a call
with limit 0 behaves like the default limit and returns a nonempty record
list here instead of an empty one. -/
theorem c4_counterexample :
    (retrieveKeyword kstEmptyFuse "small cap tax" (some 0)).chunks = [chunkTax]
    ∧ ([chunkTax] : List Chunk) ≠ [] := ⟨by decide, by decide⟩

/-- When the hint-filtered sorted results are nonempty and fit inside the
limit, the ranking stage returns all of them. -/
lemma keywordRanked_all (pq : ParsedQuery) (sr : List FuseResult) (l : Nat)
    (hne : sortByScore (sr.filter (hintFilter pq)) ≠ [])
    (hlen : (sortByScore (sr.filter (hintFilter pq))).length ≤ l) :
    keywordRanked pq sr l = sortByScore (sr.filter (hintFilter pq)) := by
  unfold keywordRanked
  rw [List.take_of_length_le hlen]
  have hm : (sortByScore (sr.filter (hintFilter pq))).isEmpty = false := by
    simpa [List.isEmpty_iff] using hne
  cases hsec : pq.sectionType <;> simp [hm]

/-- Claim C4 amended: a limit of 0 is coerced to the default limit (3 in
the keyword retriever, 5 in the vector retriever) by `options.limit || d`,
so `retrieve(q, 0)` is exactly `retrieve(q)` with the default limit; and a
limit at least as large as the number of matching records returns all of
them, without error. -/
theorem c4_limit_boundary :
    (∀ (st : KState) (q : String), retrieveKeyword st q (some 0) = retrieveKeyword st q none)
    ∧ (∀ (st : VState) (q : String), retrieveVector st q (some 0) = retrieveVector st q none)
    ∧ (∀ (st : KState) (q : String) (l : Nat),
        0 < l →
        directHit st.toRCore (parseQuery q) = none →
        sortByScore ((st.fuse q (l * 3)).filter (hintFilter (parseQuery q))) ≠ [] →
        (sortByScore ((st.fuse q (l * 3)).filter (hintFilter (parseQuery q)))).length ≤ l →
        (retrieveKeyword st q (some l)).chunks
          = (sortByScore ((st.fuse q (l * 3)).filter (hintFilter (parseQuery q)))).map
              (fun r => r.item)) := by
  refine ⟨fun st q => rfl, fun st q => rfl, ?_⟩
  intro st q l hl hdirect hne hlen
  have hlim : jsOrNat (some l) 3 = l := by
    simp [jsOrNat, Nat.pos_iff_ne_zero.mp hl]
  simp only [retrieveKeyword, hdirect, hlim, keywordRanked_all _ _ _ hne hlen]

/-- Fuse results over the two-chunk corpus: the fees chunk scores better
than the tax chunk. -/
def fuseFees : FuseResult := { item := chunkFees, score := 0 }

def fuseTax : FuseResult := { item := chunkTax, score := 1 }

/-- A keyword-retriever state whose Fuse search finds both chunks. -/
def kstFuse : KState :=
  { chunkLookup := lookup2, metadataIndex := meta2, initialized := true,
    fuse := fun _ _ => [fuseFees, fuseTax] }

/-- Witness for `c4_limit_boundary` at the concrete fixtures. -/
theorem c4_limit_boundary_witness :
    retrieveKeyword kstEmptyFuse "small cap tax" (some 0)
      = retrieveKeyword kstEmptyFuse "small cap tax" none
    ∧ retrieveVector vstHealthy "small cap tax" (some 0)
      = retrieveVector vstHealthy "small cap tax" none
    ∧ (retrieveKeyword kstFuse "expense ratio" (some 2)).chunks
      = (sortByScore ((kstFuse.fuse "expense ratio" (2 * 3)).filter
          (hintFilter (parseQuery "expense ratio")))).map (fun r => r.item) :=
  ⟨c4_limit_boundary.1 kstEmptyFuse "small cap tax",
    c4_limit_boundary.2.1 vstHealthy "small cap tax",
    c4_limit_boundary.2.2 kstFuse "expense ratio" 2 (by decide) (by decide)
      (by decide) (by decide)⟩

/-! ### Claim C5 -/

/-- Claim C5 as stated is false on the range half: the retriever converts a
Chroma distance `d` to the similarity `1 - d` without clamping, and L2
distances are not bounded by 1, so a distance of 2 yields the attached
score `-1`, outside `[0, 1]`. -/
theorem c5_counterexample :
    retrieveVector vstFarAway "hello" none =
      .ok { chunks := [{ chunk := chunkFees, vectorScore := some (vectorScore 2),
                         vectorDistance := some 2 }],
            method := "vector_search", schemeId := none, sectionType := none,
            scores := some [vectorScore 2], error := none }
    ∧ vectorScore 2 < 0 :=
  ⟨by rfl, by norm_num [vectorScore]⟩

/-- Claim C5 amended: every attached score is `1 - distance`, which is
antitone in the distance (smaller distance, higher score) and at most 1
for nonnegative distances, but it can be negative when the distance
exceeds 1 — the code does not clamp it into `[0, 1]`. -/
theorem c5_score_monotone :
    (∀ d d' : Rat, d ≤ d' → vectorScore d' ≤ vectorScore d)
    ∧ (∀ d : Rat, 0 ≤ d → vectorScore d ≤ 1)
    ∧ (∀ (st : VState) (pq : ParsedQuery) (limit : Nat) (emb : List Rat)
        (res : List (String × Rat)),
        st.embed pq.query = .ok emb →
        st.chromaQuery { queryEmbedding := emb, nResults := limit,
                         whereScheme := pq.schemeId,
                         whereSection := pq.sectionType } = .ok res →
        res ≠ [] →
        retrieveVectorTry st pq limit =
          .ok { chunks := res.filterMap (fun p => (jsGet st.chunkLookup p.1).map
                  (fun c => { chunk := c, vectorScore := some (vectorScore p.2),
                              vectorDistance := some p.2 })),
                method := "vector_search", schemeId := pq.schemeId,
                sectionType := pq.sectionType,
                scores := some (res.map (fun p => vectorScore p.2)), error := none }) := by
  refine ⟨?_, ?_, ?_⟩
  · intro d d' h
    simp only [vectorScore]
    linarith
  · intro d h
    simp only [vectorScore]
    linarith
  · intro st pq limit emb res hembed hchroma hne
    have hres : res.isEmpty = false := by simpa [List.isEmpty_iff] using hne
    simp only [retrieveVectorTry, hembed, hchroma, hres, Bool.false_eq_true, if_false]

/-- Witness for `c5_score_monotone` at the concrete fixtures. -/
theorem c5_score_monotone_witness :
    vectorScore 2 ≤ vectorScore 0
    ∧ vectorScore 0 ≤ 1
    ∧ retrieveVectorTry vstFarAway (parseQuery "hello") 5 =
        .ok { chunks := [{ chunk := chunkFees, vectorScore := some (vectorScore 2),
                           vectorDistance := some 2 }],
              method := "vector_search", schemeId := none, sectionType := none,
              scores := some [vectorScore 2], error := none } :=
  ⟨c5_score_monotone.1 0 2 (by norm_num),
    c5_score_monotone.2.1 0 (le_refl 0),
    by
      have h := c5_score_monotone.2.2 vstFarAway (parseQuery "hello") 5 [1, 0]
        [("hdfc-small-cap-fund-direct-growth__fees", 2)] rfl rfl (by decide)
      exact h⟩

/-! ### Claim C6 -/

/-- Setting a key makes it readable: `jsGet` after `jsSet` at the same key. -/
lemma jsGet_jsSet_self {α : Type} (m : List (String × α)) (k : String) (v : α) :
    jsGet (jsSet m k v) k = some v := by
  induction m with
  | nil => simp [jsSet, jsGet]
  | cons kv rest ih =>
    obtain ⟨k0, v0⟩ := kv
    by_cases h : k0 = k
    · simp [jsSet, h, jsGet]
    · simp [jsSet, h, jsGet, ih]

/-- Setting one key leaves every other key unchanged. -/
lemma jsGet_jsSet_of_ne {α : Type} (m : List (String × α)) (k k' : String) (v : α)
    (hne : k' ≠ k) : jsGet (jsSet m k v) k' = jsGet m k' := by
  induction m with
  | nil => simp [jsSet, jsGet, Ne.symm hne]
  | cons kv rest ih =>
    obtain ⟨k0, v0⟩ := kv
    by_cases h : k0 = k
    · subst h
      simp [jsSet, jsGet, Ne.symm hne]
    · simp only [jsSet, h, if_false, jsGet, ih]

/-- Chunks whose ids are all different from `k` do not disturb the entry of
`k` while folding the lookup. -/
lemma buildChunkLookup_foldl_of_not_mem :
    ∀ (chunks : List Chunk) (m : List (String × Chunk)) (k : String),
      k ∉ chunks.map Chunk.chunk_id →
      jsGet (chunks.foldl (fun lookup c => jsSet lookup c.chunk_id c) m) k = jsGet m k := by
  intro chunks
  induction chunks with
  | nil => intro m k _; rfl
  | cons x xs ih =>
    intro m k hk
    simp only [List.map_cons, List.mem_cons, not_or] at hk
    simp only [List.foldl_cons]
    rw [ih _ k hk.2, jsGet_jsSet_of_ne _ _ _ _ hk.1]

/-- The fold of `buildChunkLookup` maps each chunk id to its chunk when the
ids are pairwise distinct. -/
lemma buildChunkLookup_foldl_mem :
    ∀ (chunks : List Chunk) (m : List (String × Chunk)) (c : Chunk),
      c ∈ chunks → (chunks.map Chunk.chunk_id).Nodup →
      jsGet (chunks.foldl (fun lookup x => jsSet lookup x.chunk_id x) m) c.chunk_id = some c := by
  intro chunks
  induction chunks with
  | nil => intro m c hc; cases hc
  | cons x xs ih =>
    intro m c hc hnd
    simp only [List.map_cons, List.nodup_cons] at hnd
    simp only [List.foldl_cons]
    rcases List.mem_cons.mp hc with h | h
    · subst h
      rw [buildChunkLookup_foldl_of_not_mem xs _ _ hnd.1, jsGet_jsSet_self]
    · exact ih _ c h hnd.2

/-- Claim C6: loading a corpus with pairwise distinct chunk ids (the unique
id invariant of the data model) and then looking a record up by its own id
returns exactly that record, both through the raw `buildChunkLookup` table
and through the `getChunk` accessor of an initialized retriever. -/
theorem c6_load_roundtrip :
    ∀ (chunks : List Chunk) (mi : MetaIndex) (c : Chunk),
      (chunks.map Chunk.chunk_id).Nodup → c ∈ chunks →
      jsGet (buildChunkLookup chunks) c.chunk_id = some c
      ∧ getChunk { chunkLookup := buildChunkLookup chunks, metadataIndex := mi,
                   initialized := true } c.chunk_id = .ok (some c) := by
  intro chunks mi c hnd hc
  have h := buildChunkLookup_foldl_mem chunks [] c hc hnd
  exact ⟨h, by simp [getChunk, buildChunkLookup, h]⟩

/-- Witness for `c6_load_roundtrip` on the two-chunk corpus. -/
theorem c6_load_roundtrip_witness :
    jsGet (buildChunkLookup corpus2) chunkTax.chunk_id = some chunkTax
    ∧ getChunk { chunkLookup := buildChunkLookup corpus2, metadataIndex := meta2,
                 initialized := true } chunkTax.chunk_id = .ok (some chunkTax) :=
  c6_load_roundtrip corpus2 meta2 chunkTax (by decide) (by decide)

/-! ### Claim C7 -/

/-- If every pattern before position `i` fails and the pattern at `i`
matches, the loop stops at `i`. -/
lemma firstMatch_of_first (pats : List (Regex × String)) (q : String) :
    ∀ (i : Nat) (hi : i < pats.length),
      (∀ pv ∈ pats.take i, pv.1.testI q = false) →
      (pats.get ⟨i, hi⟩).1.testI q = true →
      firstMatch pats q = some (pats.get ⟨i, hi⟩).2 := by
  induction pats with
  | nil => intro i hi; exact absurd hi (by simp)
  | cons hd tl ih =>
    intro i hi hpre hmatch
    cases i with
    | zero =>
      simp only [List.get] at hmatch ⊢
      simp [firstMatch, hmatch]
    | succ j =>
      have hhd : hd.1.testI q = false := hpre hd (by simp)
      simp only [List.get] at hmatch ⊢
      simp only [firstMatch, hhd, Bool.false_eq_true, if_false]
      exact ih j (by simpa using hi) (fun pv hpv => hpre pv (by simp [hpv])) hmatch

/-- If no pattern matches, the loop yields null. -/
lemma firstMatch_of_none (pats : List (Regex × String)) (q : String)
    (h : ∀ pv ∈ pats, pv.1.testI q = false) : firstMatch pats q = none := by
  induction pats with
  | nil => rfl
  | cons hd tl ih =>
    have hhd : hd.1.testI q = false := h hd (by simp)
    simp only [firstMatch, hhd, Bool.false_eq_true, if_false]
    exact ih (fun pv hpv => h pv (by simp [hpv]))

/-- Claim C7: `parseQuery` evaluates the two fixed ordered pattern tables
independently (it is literally the pair of `firstMatch` runs, hence a pure
function of its input); per field, the first table entry in declaration
order whose pattern matches decides the hint and later entries have no
effect, and if no entry matches the hint is null. -/
theorem c7_parse_query_first_match :
    (∀ q : String, parseQuery q =
      { schemeId := firstMatch schemePatterns q,
        sectionType := firstMatch intentPatterns q, query := q })
    ∧ (∀ (q : String) (i : Nat) (hi : i < schemePatterns.length),
        (∀ pv ∈ schemePatterns.take i, pv.1.testI q = false) →
        (schemePatterns.get ⟨i, hi⟩).1.testI q = true →
        (parseQuery q).schemeId = some (schemePatterns.get ⟨i, hi⟩).2)
    ∧ (∀ q : String, (∀ pv ∈ schemePatterns, pv.1.testI q = false) →
        (parseQuery q).schemeId = none)
    ∧ (∀ (q : String) (i : Nat) (hi : i < intentPatterns.length),
        (∀ pv ∈ intentPatterns.take i, pv.1.testI q = false) →
        (intentPatterns.get ⟨i, hi⟩).1.testI q = true →
        (parseQuery q).sectionType = some (intentPatterns.get ⟨i, hi⟩).2)
    ∧ (∀ q : String, (∀ pv ∈ intentPatterns, pv.1.testI q = false) →
        (parseQuery q).sectionType = none) :=
  ⟨fun _ => rfl,
    fun q i hi hpre hm => firstMatch_of_first schemePatterns q i hi hpre hm,
    fun q h => firstMatch_of_none schemePatterns q h,
    fun q i hi hpre hm => firstMatch_of_first intentPatterns q i hi hpre hm,
    fun q h => firstMatch_of_none intentPatterns q h⟩

/-- Witness for `c7_parse_query_first_match`: on `"elss fund"` the first
four scheme patterns fail and the fifth matches, deciding the hint; on
`"hello"` no intent pattern matches, so the hint is null. -/
theorem c7_parse_query_first_match_witness :
    (parseQuery "elss fund").schemeId = some "hdfc-elss-tax-saver-fund-direct-plan-growth"
    ∧ (parseQuery "hello").sectionType = none :=
  ⟨c7_parse_query_first_match.2.1 "elss fund" 4 (by decide) (by decide) (by decide),
    c7_parse_query_first_match.2.2.2.2 "hello" (by decide)⟩

/-! ### Claim C8 -/

/-- Claim C8: `retrieve` is a pure function of the corpus, the collaborator
functions and the call arguments — two calls against states that agree on
the chunk lookup, the metadata index and the search collaborators (the
embedding provider modelled as a fixed function of the query text) return
identical ordered records and identical scores, whatever the rest of the
state (e.g. the initialized flag) does. -/
theorem c8_retrieve_deterministic :
    (∀ (st st' : KState) (q : String) (l : Option Nat),
      st.chunkLookup = st'.chunkLookup →
      st.metadataIndex = st'.metadataIndex →
      st.fuse = st'.fuse →
      retrieveKeyword st q l = retrieveKeyword st' q l)
    ∧ (∀ (st st' : VState) (q : String) (l : Option Nat),
      st.chunkLookup = st'.chunkLookup →
      st.embed = st'.embed →
      st.chromaQuery = st'.chromaQuery →
      retrieveVector st q l = retrieveVector st' q l) := by
  constructor
  · intro st st' q l h1 h2 h3
    obtain ⟨⟨cl, mi, ini⟩, f⟩ := st
    obtain ⟨⟨cl', mi', ini'⟩, f'⟩ := st'
    simp only at h1 h2 h3
    subst h1; subst h2; subst h3
    rfl
  · intro st st' q l h1 h2 h3
    obtain ⟨⟨cl, mi, ini⟩, em, cq⟩ := st
    obtain ⟨⟨cl', mi', ini'⟩, em', cq'⟩ := st'
    simp only at h1 h2 h3
    subst h1; subst h2; subst h3
    rfl

/-- Witness for `c8_retrieve_deterministic`: the same corpus and
collaborators under two different initialized flags give identical
results. -/
theorem c8_retrieve_deterministic_witness :
    retrieveKeyword kstFuse "expense ratio" (some 2)
      = retrieveKeyword { kstFuse with initialized := false } "expense ratio" (some 2)
    ∧ retrieveVector vstHealthy "small cap tax" none
      = retrieveVector { vstHealthy with initialized := false } "small cap tax" none :=
  ⟨c8_retrieve_deterministic.1 kstFuse { kstFuse with initialized := false }
      "expense ratio" (some 2) rfl rfl rfl,
    c8_retrieve_deterministic.2 vstHealthy { vstHealthy with initialized := false }
      "small cap tax" none rfl rfl rfl⟩

/-! ### Claim C9 -/

/-- Claim C9: each pass-through accessor called before initialization has
completed throws `Retriever not initialized` instead of returning an empty
or partial result; after initialization, `getSchemeChunks` of a scheme id
absent from the by-scheme index returns the empty list, not an error. -/
theorem c9_accessor_guards :
    (∀ (st : RCore) (cid sid : String),
      st.initialized = false →
      getChunk st cid = .error "Retriever not initialized"
      ∧ listSchemes st = .error "Retriever not initialized"
      ∧ getSchemeChunks st sid = .error "Retriever not initialized")
    ∧ (∀ (st : RCore) (sid : String),
      st.initialized = true →
      jsGet st.metadataIndex.by_scheme sid = none →
      getSchemeChunks st sid = .ok []) := by
  constructor
  · intro st cid sid h
    refine ⟨?_, ?_, ?_⟩ <;> simp [getChunk, listSchemes, getSchemeChunks, h]
  · intro st sid h1 h2
    simp [getSchemeChunks, h1, h2]

/-- An uninitialized retriever core over the two-chunk corpus. -/
def rcoreUninit : RCore :=
  { chunkLookup := lookup2, metadataIndex := meta2, initialized := false }

/-- Witness for `c9_accessor_guards` at the concrete fixtures. -/
theorem c9_accessor_guards_witness :
    (getChunk rcoreUninit "hdfc-small-cap-fund-direct-growth__fees"
        = .error "Retriever not initialized"
      ∧ listSchemes rcoreUninit = .error "Retriever not initialized"
      ∧ getSchemeChunks rcoreUninit "hdfc-small-cap-fund-direct-growth"
        = .error "Retriever not initialized")
    ∧ getSchemeChunks { rcoreUninit with initialized := true } "unknown-scheme" = .ok [] :=
  ⟨c9_accessor_guards.1 rcoreUninit "hdfc-small-cap-fund-direct-growth__fees"
      "hdfc-small-cap-fund-direct-growth" rfl,
    c9_accessor_guards.2 { rcoreUninit with initialized := true } "unknown-scheme"
      rfl (by decide)⟩

/-! ### Claim C10 -/

/-- Claim C10: the Strategy-2 candidate pre-filtering of the keyword
retriever never influences the returned result — on every state, query and
limit, `retrieve` equals the same function with that block removed, because
the ranking stage filters the Fuse results directly and never reads the
candidate list. -/
theorem c10_strategy2_unused :
    ∀ (st : KState) (q : String) (l : Option Nat),
      retrieveKeyword st q l = retrieveKeywordNoS2 st q l :=
  fun _ _ _ => rfl
